import Mathlib

/-!
Shallow embedding of the Honi token-analysis bot (src/bot.js).

The program fetches Solana account data, recent transaction signatures and
market data for an (address, symbol) pair, evaluates a honeypot heuristic and
an ownership classification, and assembles a report.  Network calls are
modelled by passing the external responses in as explicit inputs of type
`Fetch`; a thrown JS `Error` becomes `Except.error` carrying the error
message; `logger.error` calls become an explicit list of logged lines
returned alongside the result.
-/

namespace Honi

/-- Outcome of a raw outbound attempt as seen inside a client's `try` block:
either the payload the external service returned, or a thrown failure
(network/node/provider error, or an exception such as an invalid `PublicKey`)
carrying its message. -/
inductive Fetch (α : Type) where
  | ok (a : α)
  | transportError (msg : String)
deriving Repr, DecidableEq

/-- Raw account state reported by the chain node (`connection.getAccountInfo`):
owner public key (rendered base58) and lamport balance.  `null` from the node
is modelled by wrapping in `Option` at the call site. -/
structure RawAccount where
  owner : String
  lamports : Nat
deriving Repr, DecidableEq

/-- The account value `getAccountInfo` returns: `{ owner, lamports }`. -/
structure AccountInfo where
  owner : String
  lamports : Nat
deriving Repr, DecidableEq

/-- One signature entry from `connection.getConfirmedSignaturesForAddress2`:
the signature and the recorded execution error, if any (`tx.err`). -/
structure SigInfo where
  signature : String
  err : Option String
deriving Repr, DecidableEq

/-- A transaction record produced by `getTokenTransactions`:
`{ txId: tx.signature, type: tx.err ? 'failed' : 'confirmed' }`. -/
structure TxRecord where
  txId : String
  type : String
deriving Repr, DecidableEq

/-- One market-data provider entry (`/coins/markets` element).  JS numbers for
price and market cap are modelled as integers; the claims at issue concern
whether the produced fields are strings or numbers, which is unaffected by
the numeric carrier. -/
structure MarketEntry where
  name : String
  symbol : String
  current_price : Int
  market_cap : Nat
deriving Repr, DecidableEq

/-- The token value `getTokenInfo` returns.  `price` and `marketCap` are
`String` because the source builds them with template interpolation:
`` price: `$${token.current_price}` `` and
`` marketCap: `$${token.market_cap.toLocaleString()}` ``. -/
structure TokenDetails where
  name : String
  symbol : String
  price : String
  marketCap : String
deriving Repr, DecidableEq

/-- The object returned by `analyzeToken` on success. -/
structure AnalysisReport where
  honeypot : String
  ownership : String
  tokenDetails : TokenDetails
  transactions : List TxRecord
deriving Repr, DecidableEq

/-- `Number.prototype.toLocaleString()` digit grouping: a comma after every
group of three digits, counting from the right (digits arrive reversed). -/
def insertCommas : List Char → List Char
  | a :: b :: c :: d :: rest => a :: b :: c :: ',' :: insertCommas (d :: rest)
  | l => l

/-- `n.toLocaleString()` for a natural number in the default (en-US style)
locale: decimal digits with comma grouping separators. -/
def groupDigits (n : Nat) : String :=
  String.mk (insertCommas (Nat.repr n).data.reverse).reverse

/-- `getAccountInfo(address)` (src/bot.js lines 47-60).  The first component
is what the function returns or throws; the second is the lines passed to
`logger.error`.  A `null` account makes the `try` block throw
`'Account not found'`, which the function's own `catch` logs and replaces by
the generic `'Failed to fetch account info.'`; any thrown transport error
takes the same `catch` path. -/
def getAccountInfo (resp : Fetch (Option RawAccount)) (address : String) :
    Except String AccountInfo × List String :=
  match resp with
  | .ok (some acc) => (.ok ⟨acc.owner, acc.lamports⟩, [])
  | .ok none =>
      (.error "Failed to fetch account info.",
       ["Error fetching account info for " ++ address ++ ": Account not found"])
  | .transportError m =>
      (.error "Failed to fetch account info.",
       ["Error fetching account info for " ++ address ++ ": " ++ m])

/-- `getTokenTransactions(address)` (src/bot.js lines 62-74): maps each
signature entry to `{ txId, type: tx.err ? 'failed' : 'confirmed' }`; a
thrown node error is logged and replaced by the generic
`'Failed to fetch transactions.'`. -/
def getTokenTransactions (resp : Fetch (List SigInfo)) (address : String) :
    Except String (List TxRecord) × List String :=
  match resp with
  | .ok sigs =>
      (.ok (sigs.map fun tx =>
        ⟨tx.signature, if tx.err.isSome then "failed" else "confirmed"⟩), [])
  | .transportError m =>
      (.error "Failed to fetch transactions.",
       ["Error fetching transactions for " ++ address ++ ": " ++ m])

/-- `getTokenInfo(symbol)` (src/bot.js lines 77-97).  The provider is queried
with `ids: symbol.toLowerCase()`; since responses are inputs here, the symbol
parameter is not needed.  Zero entries make the `try` block throw
`'Token not found.'`, which the function's own `catch` logs and replaces by
the generic `'Failed to retrieve token info.'`; transport errors take the
same path.  On success, `price` and `marketCap` are built as `$`-prefixed
strings. -/
def getTokenInfo (resp : Fetch (List MarketEntry)) :
    Except String TokenDetails × List String :=
  match resp with
  | .ok [] =>
      (.error "Failed to retrieve token info.",
       ["Error fetching token info: Token not found."])
  | .ok (token :: _) =>
      (.ok ⟨token.name, token.symbol,
            "$" ++ toString token.current_price,
            "$" ++ groupDigits token.market_cap⟩, [])
  | .transportError m =>
      (.error "Failed to retrieve token info.",
       ["Error fetching token info: " ++ m])

/-- `checkHoneypotLogic(accountInfo, transactions)` (src/bot.js lines
122-126).  A JS-falsy `accountInfo` is modelled as `none`. -/
def checkHoneypotLogic (accountInfo : Option AccountInfo)
    (transactions : List TxRecord) : Bool :=
  if accountInfo.isNone || transactions.length == 0 then true
  else if transactions.all fun tx => tx.type == "receive" then true
  else false

/-- `checkOwnership(accountInfo)` (src/bot.js lines 128-133). -/
def checkOwnership (accountInfo : Option AccountInfo) : String :=
  match accountInfo with
  | none => "❓ Unknown"
  | some a =>
      if a.owner == "11111111111111111111111111111111" then
        "🚨 Centralized Ownership"
      else
        "✅ Owner: " ++ a.owner

/-- `analyzeToken(address, tokenSymbol)` (src/bot.js lines 100-120).
`Promise.all` resolves only when all three fetches resolve; if any rejects,
the `catch` logs the cause and throws the single generic message.  On the
success path `accountInfo` is always a (truthy) object, hence `some`. -/
def analyzeToken (accResp : Fetch (Option RawAccount))
    (txResp : Fetch (List SigInfo)) (mktResp : Fetch (List MarketEntry))
    (address : String) : Except String AnalysisReport :=
  match (getAccountInfo accResp address).1,
        (getTokenTransactions txResp address).1,
        (getTokenInfo mktResp).1 with
  | .ok accountInfo, .ok transactions, .ok tokenDetails =>
      .ok { honeypot :=
              if checkHoneypotLogic (some accountInfo) transactions then
                "⚠️ High Risk"
              else
                "✅ No Honeypot Detected",
            ownership := checkOwnership (some accountInfo),
            tokenDetails := tokenDetails,
            transactions := transactions.take 5 }
  | _, _, _ => .error "Analysis failed. Check the token address and symbol."

/-- The configured minimum spacing between limiter task starts
(`new Bottleneck({ minTime: 300, ... })`, src/bot.js line 34). -/
def limiterMinTime : Nat := 300

/-- The configured maximum number of concurrently executing limiter tasks
(`new Bottleneck({ ..., maxConcurrent: 5 })`, src/bot.js line 35). -/
def limiterMaxConcurrent : Nat := 5

/-- Static call structure of the pipeline: a direct outbound call, a task
submitted through `limiter.schedule`, or a three-way `Promise.all`. -/
inductive CallTree where
  | outbound (name : String)
  | limited (body : CallTree)
  | par3 (a b c : CallTree)
deriving Repr, DecidableEq

/-- How `analyzeToken` issues its outbound work (src/bot.js lines 102-106):
a `Promise.all` over the three client calls, none wrapped in
`limiter.schedule`. -/
def analyzeTokenCalls : CallTree :=
  .par3 (.outbound "getAccountInfo") (.outbound "getTokenTransactions")
    (.outbound "getTokenInfo")

/-- How the `/check` command issues the analysis (src/bot.js line 157):
`limiter.schedule(() => analyzeToken(address, symbol))` — one limiter task
around the whole analysis. -/
def checkCommandCalls : CallTree := .limited analyzeTokenCalls

/-- Number of direct outbound calls in a call tree. -/
def countOutbound : CallTree → Nat
  | .outbound _ => 1
  | .limited b => countOutbound b
  | .par3 a b c => countOutbound a + countOutbound b + countOutbound c

/-- Number of `limiter.schedule` submissions in a call tree. -/
def countLimited : CallTree → Nat
  | .outbound _ => 0
  | .limited b => 1 + countLimited b
  | .par3 a b c => countLimited a + countLimited b + countLimited c

/-- Modelled from the spec: "all outbound calls from all components must
route through it [the Rate Limiter]" — every outbound call is submitted as
its own limiter task, i.e. every `outbound` node is the immediate body of a
`limited` wrapper.  This predicate states the spec's routing discipline; the
source's actual structure is `checkCommandCalls`. -/
def specEachFetchLimited : CallTree → Bool
  | .outbound _ => false
  | .limited (.outbound _) => true
  | .limited b => specEachFetchLimited b
  | .par3 a b c =>
      specEachFetchLimited a && specEachFetchLimited b && specEachFetchLimited c

/-! ## Helper lemmas -/

lemma ownerStr_ne_unknown (s : String) : "✅ Owner: " ++ s ≠ "❓ Unknown" := by
  intro h
  have h2 : ("✅ Owner: " ++ s).data = "❓ Unknown".data := by rw [h]
  simp [String.data_append] at h2

lemma ownerStr_ne_centralized (s : String) :
    "✅ Owner: " ++ s ≠ "🚨 Centralized Ownership" := by
  intro h
  have h2 : ("✅ Owner: " ++ s).data = "🚨 Centralized Ownership".data := by rw [h]
  simp [String.data_append] at h2

/-! ## Claims -/

/-- C1: for every (present) accountInfo and every non-empty transaction list,
`checkHoneypotLogic` returns `true` (high risk) exactly when every element is
classified as the incoming-only type `"receive"`; hence it returns `false`
(none detected) as soon as at least one element is not incoming-only. -/
theorem checkHoneypotLogic_nonEmpty_receive_iff (a : AccountInfo)
    (txs : List TxRecord) (h : txs ≠ []) :
    checkHoneypotLogic (some a) txs = true ↔ ∀ tx ∈ txs, tx.type = "receive" := by
  simp [checkHoneypotLogic, h, List.all_eq_true]

/-- Witness for C1 at a concrete input: a singleton incoming-only history. -/
theorem checkHoneypotLogic_nonEmpty_receive_iff_witness :
    ([(⟨"t1", "receive"⟩ : TxRecord)] : List TxRecord) ≠ [] ∧
      (checkHoneypotLogic (some ⟨"own", 1⟩) [⟨"t1", "receive"⟩] = true ↔
        ∀ tx ∈ ([(⟨"t1", "receive"⟩ : TxRecord)] : List TxRecord),
          tx.type = "receive") :=
  ⟨by simp,
   checkHoneypotLogic_nonEmpty_receive_iff ⟨"own", 1⟩ [⟨"t1", "receive"⟩] (by simp)⟩

/-- C8: `checkHoneypotLogic` returns `true` (high risk) whenever the
transaction list is empty, and whenever the accountInfo is absent. -/
theorem checkHoneypotLogic_empty_or_absent (acc : Option AccountInfo)
    (txs : List TxRecord) :
    checkHoneypotLogic acc [] = true ∧ checkHoneypotLogic none txs = true := by
  constructor <;> simp [checkHoneypotLogic]

/-- C3: `checkOwnership` is total and three-way: absence maps to the unknown
outcome, the reserved system identity `11111111111111111111111111111111` maps
to the centralized outcome, and any other owner maps to the distributed
outcome carrying that owner; the three outcome strings are pairwise distinct,
so exactly one outcome is produced for every input. -/
theorem checkOwnership_trichotomy (acc : Option AccountInfo) :
    ((acc = none ∧ checkOwnership acc = "❓ Unknown") ∨
      (∃ a, acc = some a ∧ a.owner = "11111111111111111111111111111111" ∧
        checkOwnership acc = "🚨 Centralized Ownership") ∨
      (∃ a, acc = some a ∧ a.owner ≠ "11111111111111111111111111111111" ∧
        checkOwnership acc = "✅ Owner: " ++ a.owner)) ∧
    (∀ s : String, "✅ Owner: " ++ s ≠ "❓ Unknown") ∧
    (∀ s : String, "✅ Owner: " ++ s ≠ "🚨 Centralized Ownership") ∧
    ("❓ Unknown" : String) ≠ "🚨 Centralized Ownership" := by
  refine ⟨?_, ownerStr_ne_unknown, ownerStr_ne_centralized, by decide⟩
  match acc with
  | none => exact Or.inl ⟨rfl, rfl⟩
  | some a =>
      by_cases h : a.owner = "11111111111111111111111111111111"
      · exact Or.inr (Or.inl ⟨a, rfl, h, by simp [checkOwnership, h]⟩)
      · exact Or.inr (Or.inr ⟨a, rfl, h, by simp [checkOwnership, h]⟩)

/-- C5 counterexample: in the source, the three fetches are NOT individually
routed through the rate limiter — `analyzeToken` issues them directly inside
`Promise.all`, and only the `/check` handler wraps the whole analysis in a
single `limiter.schedule` task.  The spec's routing discipline
(`specEachFetchLimited`) fails on the actual call structure. -/
theorem specEachFetchLimited_fails_on_source :
    specEachFetchLimited checkCommandCalls = false ∧
    countOutbound checkCommandCalls = 3 ∧
    countLimited checkCommandCalls = 1 := by
  refine ⟨rfl, rfl, rfl⟩

/-- C5 amended: the `/check` handler submits the entire `analyzeToken`
invocation to the shared limiter (configured with `minTime` 300 and
`maxConcurrent` 5) as one task; inside it the three outbound fetches execute
directly, with no `limiter.schedule` wrapper of their own. -/
theorem limiter_wraps_whole_analysis :
    checkCommandCalls = .limited analyzeTokenCalls ∧
    countOutbound analyzeTokenCalls = 3 ∧
    countLimited analyzeTokenCalls = 0 ∧
    limiterMinTime = 300 ∧
    limiterMaxConcurrent = 5 := by
  refine ⟨rfl, rfl, rfl, rfl, rfl⟩

/-- C6 counterexample: when the node reports no such account, `getAccountInfo`
does not throw an account-not-found-specific error — its own `catch` replaces
it with the same generic `'Failed to fetch account info.'` it throws on a
transport failure, so the two causes are indistinguishable from the thrown
error; likewise `getTokenInfo` for zero entries versus transport failure. -/
theorem componentErrors_indistinguishable :
    (getAccountInfo (.ok none) "addr").1 =
      (getAccountInfo (.transportError "fetch failed") "addr").1 ∧
    (getAccountInfo (.ok none) "addr").1 = .error "Failed to fetch account info." ∧
    (getTokenInfo (.ok [])).1 = (getTokenInfo (.transportError "fetch failed")).1 ∧
    (getTokenInfo (.ok [])).1 = .error "Failed to retrieve token info." := by
  refine ⟨rfl, rfl, rfl, rfl⟩

/-- C6 amended: each client collapses its own failure causes into one
component-generic error (`'Failed to fetch account info.'`,
`'Failed to fetch transactions.'`, `'Failed to retrieve token info.'`); the
specific cause (account not found, token not found, transport message) is
recorded only in the logged line, where it stays distinguishable, and the
three components' errors are pairwise distinct from one another. -/
theorem componentErrors_generic_causes_logged (address m : String) :
    (getAccountInfo (.ok none) address).1 = .error "Failed to fetch account info." ∧
    (getAccountInfo (.transportError m) address).1 =
      .error "Failed to fetch account info." ∧
    (getAccountInfo (.ok none) address).2 =
      ["Error fetching account info for " ++ address ++ ": Account not found"] ∧
    (getAccountInfo (.transportError m) address).2 =
      ["Error fetching account info for " ++ address ++ ": " ++ m] ∧
    (getTokenInfo (.ok ([] : List MarketEntry))).1 =
      .error "Failed to retrieve token info." ∧
    (getTokenInfo (.transportError m)).1 = .error "Failed to retrieve token info." ∧
    (getTokenInfo (.ok ([] : List MarketEntry))).2 =
      ["Error fetching token info: Token not found."] ∧
    (getTokenTransactions (.transportError m) address).1 =
      .error "Failed to fetch transactions." ∧
    ("Failed to fetch account info." : String) ≠ "Failed to retrieve token info." ∧
    ("Failed to fetch account info." : String) ≠ "Failed to fetch transactions." ∧
    ("Failed to retrieve token info." : String) ≠ "Failed to fetch transactions." := by
  refine ⟨rfl, rfl, rfl, rfl, rfl, rfl, rfl, rfl, by decide, by decide, by decide⟩

/-- C7 counterexample: at the data-model level `getTokenInfo` produces `price`
and `marketCap` as currency-formatted strings, not decimal numeric values:
for a concrete provider entry the returned price is the string `"$150"`,
which differs from the bare decimal rendering of `150`, and the market cap is
the grouped string `"$70,000,000,000"`. -/
theorem tokenInfo_fields_are_formatted_strings :
    (getTokenInfo (.ok [⟨"Solana", "sol", 150, 70000000000⟩])).1 =
      .ok ⟨"Solana", "sol", "$150", "$70,000,000,000"⟩ ∧
    ("$150" : String) ≠ toString (150 : Int) ∧
    ("$70,000,000,000" : String) ≠ toString (70000000000 : Nat) := by
  refine ⟨rfl, by decide, by decide⟩

/-- C7 amended: on success `getTokenInfo` returns `price` and `marketCap`
already formatted, in the client itself, as `$`-prefixed strings — the first
character of each is the currency sign and the rest of the price is the
decimal rendering of the provider's number, the rest of the market cap its
digit-grouped rendering. -/
theorem tokenInfo_success_currency_strings (e : MarketEntry)
    (rest : List MarketEntry) :
    (getTokenInfo (.ok (e :: rest))).1 =
      .ok ⟨e.name, e.symbol, "$" ++ toString e.current_price,
           "$" ++ groupDigits e.market_cap⟩ ∧
    ("$" ++ toString e.current_price).data =
      '$' :: (toString e.current_price).data ∧
    ("$" ++ groupDigits e.market_cap).data = '$' :: (groupDigits e.market_cap).data := by
  refine ⟨rfl, ?_, ?_⟩ <;> simp [String.data_append]

/-- C2: if any of the three fetches fails, `analyzeToken` fails the whole
request with the single generic message
`'Analysis failed. Check the token address and symbol.'` and, being an
`Except.error`, carries no (partial) report to the caller. -/
theorem analyzeToken_failFast (accResp : Fetch (Option RawAccount))
    (txResp : Fetch (List SigInfo)) (mktResp : Fetch (List MarketEntry))
    (address : String)
    (h : (∃ e, (getAccountInfo accResp address).1 = .error e) ∨
         (∃ e, (getTokenTransactions txResp address).1 = .error e) ∨
         (∃ e, (getTokenInfo mktResp).1 = .error e)) :
    analyzeToken accResp txResp mktResp address =
      .error "Analysis failed. Check the token address and symbol." := by
  unfold analyzeToken
  rcases hacc : (getAccountInfo accResp address).1 with e1 | a1 <;>
    rcases htx : (getTokenTransactions txResp address).1 with e2 | a2 <;>
      rcases hmkt : (getTokenInfo mktResp).1 with e3 | a3 <;>
        simp_all

/-- Witness for C2 at a concrete input: the account fetch hits a transport
failure while the other two fetches would succeed. -/
theorem analyzeToken_failFast_witness :
    ((∃ e, (getAccountInfo (.transportError "network down") "addr").1 =
        Except.error e) ∨
      (∃ e, (getTokenTransactions (.ok ([] : List SigInfo)) "addr").1 =
        Except.error e) ∨
      (∃ e, (getTokenInfo (.ok [⟨"Solana", "sol", 150, 70000000000⟩])).1 =
        Except.error e)) ∧
    analyzeToken (.transportError "network down") (.ok [])
        (.ok [⟨"Solana", "sol", 150, 70000000000⟩]) "addr" =
      .error "Analysis failed. Check the token address and symbol." :=
  have h : (∃ e, (getAccountInfo
        (Fetch.transportError "network down") "addr").1 = Except.error e) ∨
      (∃ e, (getTokenTransactions (.ok ([] : List SigInfo)) "addr").1 =
        Except.error e) ∨
      (∃ e, (getTokenInfo (.ok [⟨"Solana", "sol", 150, 70000000000⟩])).1 =
        Except.error e) :=
    Or.inl ⟨"Failed to fetch account info.", rfl⟩
  ⟨h, analyzeToken_failFast _ _ _ "addr" h⟩

/-- C4: whenever `analyzeToken` succeeds, the report's transaction list is
exactly the first five elements (the head) of the most-recent-first list the
chain client returned, hence of length at most five. -/
theorem analyzeToken_truncates (accResp : Fetch (Option RawAccount))
    (txResp : Fetch (List SigInfo)) (mktResp : Fetch (List MarketEntry))
    (address : String) (l : List TxRecord) (r : AnalysisReport)
    (hl : (getTokenTransactions txResp address).1 = .ok l)
    (hr : analyzeToken accResp txResp mktResp address = .ok r) :
    r.transactions = l.take 5 ∧ r.transactions.length ≤ 5 := by
  unfold analyzeToken at hr
  rcases hacc : (getAccountInfo accResp address).1 with e1 | a1 <;>
    rcases hmkt : (getTokenInfo mktResp).1 with e3 | a3 <;>
      rw [hacc, hl, hmkt] at hr <;> simp at hr
  subst hr
  exact ⟨rfl, by simp [List.length_take]⟩

/-- A node response with the full window of ten signature entries. -/
def wSigs : List SigInfo :=
  [⟨"s1", none⟩, ⟨"s2", some "e2"⟩, ⟨"s3", none⟩, ⟨"s4", none⟩, ⟨"s5", none⟩,
   ⟨"s6", none⟩, ⟨"s7", some "e7"⟩, ⟨"s8", none⟩, ⟨"s9", none⟩, ⟨"s10", none⟩]

/-- The ten transaction records `getTokenTransactions` derives from `wSigs`. -/
def wTxs : List TxRecord :=
  [⟨"s1", "confirmed"⟩, ⟨"s2", "failed"⟩, ⟨"s3", "confirmed"⟩,
   ⟨"s4", "confirmed"⟩, ⟨"s5", "confirmed"⟩, ⟨"s6", "confirmed"⟩,
   ⟨"s7", "failed"⟩, ⟨"s8", "confirmed"⟩, ⟨"s9", "confirmed"⟩,
   ⟨"s10", "confirmed"⟩]

/-- A successful account response for witnesses. -/
def wAccResp : Fetch (Option RawAccount) := .ok (some ⟨"own", 1⟩)

/-- A successful one-entry market response for witnesses. -/
def wMktResp : Fetch (List MarketEntry) :=
  .ok [⟨"Solana", "sol", 150, 70000000000⟩]

/-- The report `analyzeToken` produces from `wAccResp`, `wSigs`, `wMktResp`. -/
def wReport : AnalysisReport :=
  { honeypot := "✅ No Honeypot Detected",
    ownership := "✅ Owner: own",
    tokenDetails := ⟨"Solana", "sol", "$150", "$70,000,000,000"⟩,
    transactions := wTxs.take 5 }

/-- Witness for C4 at a concrete input: the chain client returns its full
window of ten records and the report keeps exactly the first five. -/
theorem analyzeToken_truncates_witness :
    (getTokenTransactions (.ok wSigs) "addr").1 = .ok wTxs ∧
    analyzeToken wAccResp (.ok wSigs) wMktResp "addr" = .ok wReport ∧
    (wReport.transactions = wTxs.take 5 ∧ wReport.transactions.length ≤ 5) :=
  ⟨rfl, rfl,
   analyzeToken_truncates wAccResp (.ok wSigs) wMktResp "addr" wTxs wReport
     rfl rfl⟩

/-- C9: `getTokenTransactions` returns an empty list — not an error — when the
node reports no history for the address; and every record it derives has
`txId` equal to the entry's signature and status `"failed"` exactly when the
entry recorded an execution error, `"confirmed"` otherwise. -/
theorem getTokenTransactions_emptyOk_and_status (address : String)
    (sigs : List SigInfo) :
    (getTokenTransactions (.ok []) address).1 = .ok ([] : List TxRecord) ∧
    ∃ l, (getTokenTransactions (.ok sigs) address).1 = .ok l ∧
      List.Forall₂ (fun (tx : SigInfo) (rec : TxRecord) =>
        rec.txId = tx.signature ∧
        (rec.type = "failed" ↔ tx.err ≠ none) ∧
        (rec.type = "confirmed" ↔ tx.err = none)) sigs l := by
  refine ⟨rfl, _, rfl, ?_⟩
  rw [List.forall₂_map_right_iff]
  rw [List.forall₂_same]
  intro tx _
  cases htx : tx.err <;> simp [htx]

/-- If no record of a list is classified `"receive"`, `checkHoneypotLogic`
with a present accountInfo reduces to the emptiness test on the list. -/
lemma checkHoneypotLogic_of_no_receive (a : AccountInfo) (l : List TxRecord)
    (hno : ∀ rec ∈ l, rec.type ≠ "receive") :
    checkHoneypotLogic (some a) l = (l.length == 0) := by
  cases l with
  | nil => simp [checkHoneypotLogic]
  | cons x xs =>
      have hx := hno x (by simp)
      simp [checkHoneypotLogic, hx]

/-- C10 (implicit): every record the pipeline fetches is `"confirmed"` or
`"failed"`, never `"receive"`, so within the composed `analyzeToken` the
incoming-only branch of `checkHoneypotLogic` is unreachable and the report's
verdict is the high-risk string exactly when the fetched history is empty. -/
theorem analyzeToken_verdict_iff_empty_history
    (accResp : Fetch (Option RawAccount)) (txResp : Fetch (List SigInfo))
    (mktResp : Fetch (List MarketEntry)) (address : String)
    (l : List TxRecord) (r : AnalysisReport)
    (hl : (getTokenTransactions txResp address).1 = .ok l)
    (hr : analyzeToken accResp txResp mktResp address = .ok r) :
    (∀ rec ∈ l, rec.type ≠ "receive" ∧
      (rec.type = "confirmed" ∨ rec.type = "failed")) ∧
    (r.honeypot = "⚠️ High Risk" ↔ l = []) ∧
    (r.honeypot = "✅ No Honeypot Detected" ↔ l ≠ []) := by
  have hno : ∀ rec ∈ l, rec.type ≠ "receive" ∧
      (rec.type = "confirmed" ∨ rec.type = "failed") := by
    rcases txResp with sigs | m
    · have : l = sigs.map fun tx =>
          (⟨tx.signature,
            if tx.err.isSome then "failed" else "confirmed"⟩ : TxRecord) := by
        simpa [getTokenTransactions] using hl.symm
      subst this
      intro rec hrec
      rcases List.mem_map.1 hrec with ⟨tx, _, hfx⟩
      subst hfx
      cases htx : tx.err <;> simp [htx]
    · simp [getTokenTransactions] at hl
  refine ⟨hno, ?_⟩
  unfold analyzeToken at hr
  rcases hacc : (getAccountInfo accResp address).1 with e1 | a1 <;>
    rcases hmkt : (getTokenInfo mktResp).1 with e3 | a3 <;>
      rw [hacc, hl, hmkt] at hr <;> simp at hr
  subst hr
  have hcheck : checkHoneypotLogic (some a1) l = (l.length == 0) :=
    checkHoneypotLogic_of_no_receive a1 l fun rec h => (hno rec h).1
  cases hl0 : l with
  | nil => subst hl0; simp [hcheck]
  | cons x xs => subst hl0; simp [hcheck]

/-- The single-record history and report used to witness C10. -/
def wTx1 : List TxRecord := [⟨"s1", "confirmed"⟩]

/-- The report `analyzeToken` produces from a one-signature history. -/
def wReport1 : AnalysisReport :=
  { honeypot := "✅ No Honeypot Detected",
    ownership := "✅ Owner: own",
    tokenDetails := ⟨"Solana", "sol", "$150", "$70,000,000,000"⟩,
    transactions := wTx1.take 5 }

/-- Witness for C10 at a concrete input: a one-signature history yields a
confirmed record and the no-honeypot verdict. -/
theorem analyzeToken_verdict_iff_empty_history_witness :
    (getTokenTransactions (.ok [⟨"s1", none⟩]) "addr").1 = .ok wTx1 ∧
    analyzeToken wAccResp (.ok [⟨"s1", none⟩]) wMktResp "addr" = .ok wReport1 ∧
    ((∀ rec ∈ wTx1, rec.type ≠ "receive" ∧
        (rec.type = "confirmed" ∨ rec.type = "failed")) ∧
      (wReport1.honeypot = "⚠️ High Risk" ↔ wTx1 = []) ∧
      (wReport1.honeypot = "✅ No Honeypot Detected" ↔ wTx1 ≠ [])) :=
  ⟨rfl, rfl,
   analyzeToken_verdict_iff_empty_history wAccResp (.ok [⟨"s1", none⟩])
     wMktResp "addr" wTx1 wReport1 rfl rfl⟩

end Honi
